import Mathlib

/-!
# Verification of the credential lifecycle and usage-accounting engine

Shallow embedding of `src/scripts/firebase_manager.py` (class `FirebaseManager`
with dataclasses `ApiKey` and `UsageLog`), checked against the repository
specification.

Modelling conventions:

* Python `int` is `Int`; machine overflow does not arise (Python ints are
  unbounded).  The 32-bit words inside SHA-256 are `Nat` reduced with
  `% 2 ^ 32` where overflow matters.
* Timestamps: the source manipulates `datetime.utcnow()` values and serialises
  them with `isoformat() + "Z"`, parsing back with
  `datetime.fromisoformat(s.replace("Z", ""))`.  Instants are modelled as `Int`
  (seconds), `timedelta(days = d)` as `d * 86400`, and the ISO serialisation as
  an injective rendering `isoZ` with partial inverse `parseIso`; only the
  ordering of instants and the serialise/parse round trip matter to the code
  under verification.
* Firestore documents are association lists `List (String × PyVal)` over a
  dynamic value type `PyVal`; a collection is a list of `(documentId, doc)`
  pairs.  The store handle `self.db` is `Option Store` (`none` is the demo
  mode entered when the `firebase-admin` import fails).
* Fallible Python code returns `Except PyErr _`; `PyErr` records the exception
  class and the offending name, mirroring `TypeError` on keyword binding,
  `AttributeError` on attribute lookup, and `NameError` on unbound globals.
* Randomness (`secrets.token_hex(32)`, `uuid.uuid4()`) and the clock
  (`datetime.utcnow()`) are passed as explicit arguments.
-/

namespace NewsDashboard

/-! ## SHA-256 (`hashlib.sha256(...).hexdigest()`)

A byte-level implementation of FIPS 180-4 SHA-256 over `List Nat`
(each element a byte), with 32-bit words carried as `Nat` and reduced
modulo `2 ^ 32`.  `hash_api_key` below composes it with UTF-8 encoding
and lowercase hex rendering, exactly as
`hashlib.sha256(key.encode()).hexdigest()` does. -/

/-- Reduce to a 32-bit word. -/
def w32 (x : Nat) : Nat := x % 4294967296

/-- Right rotation within 32 bits. -/
def rotr32 (n x : Nat) : Nat := w32 ((x >>> n) ||| (x <<< (32 - n)))

/-- FIPS 180-4 Σ0. -/
def bigSigma0 (x : Nat) : Nat := (rotr32 2 x) ^^^ (rotr32 13 x) ^^^ (rotr32 22 x)

/-- FIPS 180-4 Σ1. -/
def bigSigma1 (x : Nat) : Nat := (rotr32 6 x) ^^^ (rotr32 11 x) ^^^ (rotr32 25 x)

/-- FIPS 180-4 σ0. -/
def smallSigma0 (x : Nat) : Nat := (rotr32 7 x) ^^^ (rotr32 18 x) ^^^ (x >>> 3)

/-- FIPS 180-4 σ1. -/
def smallSigma1 (x : Nat) : Nat := (rotr32 17 x) ^^^ (rotr32 19 x) ^^^ (x >>> 10)

/-- FIPS 180-4 Ch; the 32-bit complement of `x` is `x ^^^ 0xFFFFFFFF`. -/
def chFn (x y z : Nat) : Nat := (x &&& y) ^^^ ((x ^^^ 4294967295) &&& z)

/-- FIPS 180-4 Maj. -/
def majFn (x y z : Nat) : Nat := (x &&& y) ^^^ (x &&& z) ^^^ (y &&& z)

/-- The 64 SHA-256 round constants. -/
def sha256K : List Nat :=
  [1116352408, 1899447441, 3049323471, 3921009573, 961987163, 1508970993,
   2453635748, 2870763221, 3624381080, 310598401, 607225278, 1426881987,
   1925078388, 2162078206, 2614888103, 3248222580, 3835390401, 4022224774,
   264347078, 604807628, 770255983, 1249150122, 1555081692, 1996064986,
   2554220882, 2821834349, 2952996808, 3210313671, 3336571891, 3584528711,
   113926993, 338241895, 666307205, 773529912, 1294757372, 1396182291,
   1695183700, 1986661051, 2177026350, 2456956037, 2730485921, 2820302411,
   3259730800, 3345764771, 3516065817, 3600352804, 4094571909, 275423344,
   430227734, 506948616, 659060556, 883997877, 958139571, 1322822218,
   1537002063, 1747873779, 1955562222, 2024104815, 2227730452, 2361852424,
   2428436474, 2756734187, 3204031479, 3329325298]

/-- The SHA-256 initial hash value. -/
def sha256H0 : List Nat :=
  [1779033703, 3144134277, 1013904242, 2773480762, 1359893119, 2600822924,
   528734635, 1541459225]

/-- The eight-byte big-endian rendering of a 64-bit length. -/
def lenBytes64 (n : Nat) : List Nat :=
  [(n >>> 56) % 256, (n >>> 48) % 256, (n >>> 40) % 256, (n >>> 32) % 256,
   (n >>> 24) % 256, (n >>> 16) % 256, (n >>> 8) % 256, n % 256]

/-- SHA-256 padding: a `0x80` byte, zero bytes up to 56 mod 64, then the
bit length, big endian. -/
def padMessage (msg : List Nat) : List Nat :=
  let L := msg.length
  msg ++ [0x80] ++ List.replicate ((119 - (L % 64)) % 64) 0 ++ lenBytes64 (8 * L)

/-- The `i`-th 32-bit big-endian word of a 64-byte block. -/
def wordAt (block : List Nat) (i : Nat) : Nat :=
  (((block.getD (4 * i) 0) <<< 24) ||| ((block.getD (4 * i + 1) 0) <<< 16) |||
   ((block.getD (4 * i + 2) 0) <<< 8) ||| block.getD (4 * i + 3) 0)

/-- The first sixteen schedule words of a block. -/
def blockWords (block : List Nat) : List Nat := (List.range 16).map (wordAt block)

/-- Append the next message-schedule word. -/
def scheduleStep (ws : List Nat) : List Nat :=
  let i := ws.length
  ws ++ [w32 (smallSigma1 (ws.getD (i - 2) 0) + ws.getD (i - 7) 0 +
              smallSigma0 (ws.getD (i - 15) 0) + ws.getD (i - 16) 0)]

/-- The full 64-word message schedule of a block. -/
def schedule (block : List Nat) : List Nat :=
  (List.range 48).foldl (fun ws _ => scheduleStep ws) (blockWords block)

/-- The SHA-256 working state, registers `a` through `h`. -/
structure Sha256State where
  a : Nat
  b : Nat
  c : Nat
  d : Nat
  e : Nat
  f : Nat
  g : Nat
  h : Nat

/-- One compression round, consuming a `(roundConstant, scheduleWord)` pair. -/
def roundStep (st : Sha256State) (kw : Nat × Nat) : Sha256State :=
  let t1 := w32 (st.h + bigSigma1 st.e + chFn st.e st.f st.g + kw.1 + kw.2)
  let t2 := w32 (bigSigma0 st.a + majFn st.a st.b st.c)
  { a := w32 (t1 + t2), b := st.a, c := st.b, d := st.c,
    e := w32 (st.d + t1), f := st.e, g := st.f, h := st.g }

/-- Compress one 64-byte block into the running hash value. -/
def compressBlock (hs : List Nat) (block : List Nat) : List Nat :=
  let ws := schedule block
  let st0 : Sha256State :=
    { a := hs.getD 0 0, b := hs.getD 1 0, c := hs.getD 2 0, d := hs.getD 3 0,
      e := hs.getD 4 0, f := hs.getD 5 0, g := hs.getD 6 0, h := hs.getD 7 0 }
  let st := (sha256K.zip ws).foldl roundStep st0
  [w32 (hs.getD 0 0 + st.a), w32 (hs.getD 1 0 + st.b), w32 (hs.getD 2 0 + st.c),
   w32 (hs.getD 3 0 + st.d), w32 (hs.getD 4 0 + st.e), w32 (hs.getD 5 0 + st.f),
   w32 (hs.getD 6 0 + st.g), w32 (hs.getD 7 0 + st.h)]

/-- The 64-byte blocks of a padded message. -/
def splitBlocks (l : List Nat) : List (List Nat) :=
  (List.range (l.length / 64)).map (fun i => (l.drop (64 * i)).take 64)

/-- SHA-256 digest of a byte list, as eight 32-bit words. -/
def sha256words (msg : List Nat) : List Nat :=
  (splitBlocks (padMessage msg)).foldl compressBlock sha256H0

/-- Big-endian bytes of a 32-bit word. -/
def wordToBytes (wrd : Nat) : List Nat :=
  [(wrd >>> 24) % 256, (wrd >>> 16) % 256, (wrd >>> 8) % 256, wrd % 256]

/-- SHA-256 digest of a byte list, as 32 bytes. -/
def sha256bytes (msg : List Nat) : List Nat :=
  List.flatten ((sha256words msg).map wordToBytes)

/-- Lowercase hex digit. -/
def hexDigitChar (n : Nat) : Char :=
  if n < 10 then Char.ofNat (48 + n) else Char.ofNat (87 + n)

/-- Two lowercase hex digits of a byte. -/
def byteToHex (b : Nat) : String :=
  String.mk [hexDigitChar (b / 16), hexDigitChar (b % 16)]

/-- Lowercase hex rendering of a byte list (`hexdigest`). -/
def toHexString (bs : List Nat) : String := String.join (bs.map byteToHex)

/-- UTF-8 encoding of one character (code point to one through four bytes). -/
def charUtf8 (c : Char) : List Nat :=
  let n := c.toNat
  if n < 0x80 then [n]
  else if n < 0x800 then [0xC0 ||| (n >>> 6), 0x80 ||| (n &&& 63)]
  else if n < 0x10000 then
    [0xE0 ||| (n >>> 12), 0x80 ||| ((n >>> 6) &&& 63), 0x80 ||| (n &&& 63)]
  else
    [0xF0 ||| (n >>> 18), 0x80 ||| ((n >>> 12) &&& 63),
     0x80 ||| ((n >>> 6) &&& 63), 0x80 ||| (n &&& 63)]

/-- UTF-8 bytes of a string (Python `str.encode()`). -/
def utf8Bytes (s : String) : List Nat := List.flatten (s.data.map charUtf8)

/-- `FirebaseManager.hash_api_key` (line 107):
`hashlib.sha256(key.encode()).hexdigest()`. -/
def hash_api_key (key : String) : String := toHexString (sha256bytes (utf8Bytes key))

/-! ## Dynamic values, exceptions, documents -/

/-- Python runtime values as stored in Firestore documents.  `rat` carries a
Python float at exact rational precision. -/
inductive PyVal where
  | str (s : String)
  | int (n : Int)
  | bool (b : Bool)
  | none
  | rat (q : ℚ)
  | list (xs : List PyVal)
  | dict (xs : List (String × PyVal))

/-- The Python exception classes this code can raise, each carrying the
offending name (keyword, attribute, global, key, or literal). -/
inductive PyErr where
  | typeError (n : String)
  | nameError (n : String)
  | attributeError (n : String)
  | keyError (n : String)
  | valueError (n : String)
deriving DecidableEq, Repr

/-- A Firestore document: an association list of field names to values. -/
abbrev Doc := List (String × PyVal)

/-- The two collections used by `FirebaseManager`, each a list of
`(documentId, document)` pairs. -/
structure Store where
  apiKeys : List (String × Doc)
  usageLogs : List (String × Doc)

/-- The store with no documents. -/
def emptyStore : Store := { apiKeys := [], usageLogs := [] }

/-- Field lookup in a document. -/
def docGet (d : Doc) (k : String) : Option PyVal :=
  (d.find? (fun kv => kv.1 == k)).map (fun kv => kv.2)

/-- Firestore `==` comparison of a field value against a string. -/
def isStrEq (v : Option PyVal) (s : String) : Bool :=
  match v with
  | some (PyVal.str t) => t == s
  | _ => false

/-- `collection.document(id).get()`: point lookup by document id. -/
def getById (coll : List (String × Doc)) (i : String) : Option Doc :=
  (coll.find? (fun x => x.1 == i)).map (fun x => x.2)

/-- `collection.document(id).get().exists`. -/
def hasId (coll : List (String × Doc)) (i : String) : Bool :=
  coll.any (fun x => x.1 == i)

/-- `collection.document(id).set(doc)`: overwrite the document with that id,
or create it. -/
def setDoc (coll : List (String × Doc)) (i : String) (d : Doc) : List (String × Doc) :=
  if hasId coll i then coll.map (fun x => if x.1 == i then (i, d) else x)
  else coll ++ [(i, d)]

/-- `collection.where(field, "==", value).limit(1).stream()`: the first
document whose field equals the string value. -/
def findFirstBy (coll : List (String × Doc)) (field val : String) : Option Doc :=
  (coll.find? (fun x => isStrEq (docGet x.2 field) val)).map (fun x => x.2)

/-- Merge one field into a document (Firestore `update`). -/
def updateDocField (d : Doc) (k : String) (v : PyVal) : Doc :=
  if d.any (fun kv => kv.1 == k) then d.map (fun kv => if kv.1 == k then (k, v) else kv)
  else d ++ [(k, v)]

/-- `collection.document(id).update({k: v})` applied to every matching id. -/
def updateById (coll : List (String × Doc)) (i : String) (k : String) (v : PyVal) :
    List (String × Doc) :=
  coll.map (fun x => if x.1 == i then (x.1, updateDocField x.2 k v) else x)

/-- `collection.document(id).delete()`. -/
def deleteById (coll : List (String × Doc)) (i : String) : List (String × Doc) :=
  coll.filter (fun x => !(x.1 == i))

/-! ## The dataclasses (`ApiKey`, `UsageLog`) and their serialisation -/

/-- The `ApiKey` dataclass (source lines 12 to 49), field for field.
`last_used_at`, `ip_whitelist` and `metadata` default to `None`. -/
structure ApiKey where
  id : String
  key_hash : String
  user_id : String
  user_email : String
  name : String
  description : String
  created_at : String
  start_date : String
  expires_at : String
  is_active : Bool
  request_count : Int
  rate_limit : Int
  allowed_endpoints : List String
  last_used_at : Option String := Option.none
  ip_whitelist : Option (List String) := Option.none
  metadata : Option (List (String × PyVal)) := Option.none

/-- The `UsageLog` dataclass (source lines 52 to 77). -/
structure UsageLog where
  id : String
  api_key_id : String
  endpoint : String
  method : String
  status_code : Int
  response_time : Int
  timestamp : String
  ip_address : String
  user_agent : String
  query_params : Option (List (String × PyVal)) := Option.none

/-- An optional string serialised as a Python value (`None` or `str`). -/
def optStr : Option String → PyVal
  | Option.none => PyVal.none
  | some s => PyVal.str s

/-- An optional string list serialised as a Python value. -/
def optStrList : Option (List String) → PyVal
  | Option.none => PyVal.none
  | some l => PyVal.list (l.map PyVal.str)

/-- An optional dict serialised as a Python value. -/
def optDict : Option (List (String × PyVal)) → PyVal
  | Option.none => PyVal.none
  | some d => PyVal.dict d

/-- `ApiKey.to_dict` (lines 31 to 49): camelCase storage field names. -/
def ApiKey.to_dict (k : ApiKey) : Doc :=
  [("id", PyVal.str k.id), ("keyHash", PyVal.str k.key_hash),
   ("userId", PyVal.str k.user_id), ("userEmail", PyVal.str k.user_email),
   ("name", PyVal.str k.name), ("description", PyVal.str k.description),
   ("createdAt", PyVal.str k.created_at), ("startDate", PyVal.str k.start_date),
   ("expiresAt", PyVal.str k.expires_at), ("isActive", PyVal.bool k.is_active),
   ("requestCount", PyVal.int k.request_count), ("rateLimit", PyVal.int k.rate_limit),
   ("allowedEndpoints", PyVal.list (k.allowed_endpoints.map PyVal.str)),
   ("lastUsedAt", optStr k.last_used_at), ("ipWhitelist", optStrList k.ip_whitelist),
   ("metadata", optDict k.metadata)]

/-- `UsageLog.to_dict` (lines 65 to 77). -/
def UsageLog.to_dict (l : UsageLog) : Doc :=
  [("id", PyVal.str l.id), ("apiKeyId", PyVal.str l.api_key_id),
   ("endpoint", PyVal.str l.endpoint), ("method", PyVal.str l.method),
   ("statusCode", PyVal.int l.status_code), ("responseTime", PyVal.int l.response_time),
   ("timestamp", PyVal.str l.timestamp), ("ipAddress", PyVal.str l.ip_address),
   ("userAgent", PyVal.str l.user_agent), ("queryParams", optDict l.query_params)]

/-! ## String primitives

Python's `str.replace` and the decimal rendering and parsing used by the
timestamp model, implemented by structural recursion on character lists (the
core-library counterparts are defined by well-founded recursion, which the
kernel cannot evaluate). -/

/-- Does the character list start with the pattern? -/
def startsWithChars : List Char → List Char → Bool
  | _, [] => true
  | [], _ :: _ => false
  | c :: cs, p :: ps => c == p && startsWithChars cs ps

/-- One left-to-right pass replacing non-overlapping occurrences, with fuel
bounded by the remaining length (every step consumes at least one
character). -/
def replaceChars (fuel : Nat) (s pat rep : List Char) : List Char :=
  match fuel, s with
  | 0, s => s
  | _ + 1, [] => []
  | fuel + 1, c :: cs =>
    if startsWithChars (c :: cs) pat && !pat.isEmpty then
      rep ++ replaceChars fuel ((c :: cs).drop pat.length) pat rep
    else c :: replaceChars fuel cs pat rep

/-- Python `s.replace(pat, rep)` for a non-empty pattern: replace every
non-overlapping occurrence, scanning left to right. -/
def pyReplace (s pat rep : String) : String :=
  String.mk (replaceChars s.data.length s.data pat.data rep.data)

/-- Decimal digits of a natural number, most significant first. -/
def natToDigits (fuel n : Nat) (acc : List Char) : List Char :=
  match fuel with
  | 0 => acc
  | fuel + 1 =>
    let d := Char.ofNat (48 + n % 10)
    if n / 10 = 0 then d :: acc else natToDigits fuel (n / 10) (d :: acc)

/-- Decimal rendering of a natural number. -/
def natToString (n : Nat) : String := String.mk (natToDigits (n + 1) n [])

/-- Decimal rendering of an integer, with a leading minus sign when
negative. -/
def intToString : Int → String
  | Int.ofNat n => natToString n
  | Int.negSucc n => "-" ++ natToString (n + 1)

/-- Parse a non-empty all-digit character list. -/
def parseNatChars (cs : List Char) : Option Nat :=
  if cs.isEmpty then Option.none
  else cs.foldl (fun acc c =>
    match acc with
    | some n => if 48 ≤ c.toNat ∧ c.toNat ≤ 57 then some (n * 10 + (c.toNat - 48))
                else Option.none
    | Option.none => Option.none) (some 0)

/-- Parse a decimal integer with optional leading minus sign. -/
def parseIntStr (s : String) : Option Int :=
  match s.data with
  | '-' :: rest => (parseNatChars rest).map (fun n => -(n : Int))
  | cs => (parseNatChars cs).map (fun n => (n : Int))

/-! ## Time model -/

/-- `timedelta(days = d)` in seconds. -/
def timedeltaDays (d : Int) : Int := d * 86400

/-- `t.isoformat() + "Z"`: an injective rendering of an instant. -/
def isoZ (t : Int) : String := intToString t ++ "Z"

/-- `datetime.fromisoformat(s.replace("Z", ""))` (validate lines 172 and 178):
strip every `Z` then parse; an unparsable string raises `ValueError`. -/
def parseIso (s : String) : Except PyErr Int :=
  match parseIntStr (pyReplace s "Z" "") with
  | some n => Except.ok n
  | Option.none => Except.error (PyErr.valueError s)

/-! ## Field-name remapping and dataclass keyword binding -/

/-- The key transformation of validate line 164 and `get_user_api_keys`
line 213, replacement for replacement:
`k.replace('At', '_at').replace('is_', 'is_').replace('Count', '_count')
.replace('Limit', '_limit').replace('Endpoints', '_endpoints')
.replace('Whitelist', '_whitelist')`.
(The second replacement is the identity, exactly as in the source.) -/
def remapKey (k : String) : String :=
  pyReplace (pyReplace (pyReplace (pyReplace (pyReplace (pyReplace k
    "At" "_at") "is_" "is_") "Count" "_count") "Limit" "_limit")
    "Endpoints" "_endpoints") "Whitelist" "_whitelist"

/-- Remap every key of a document.  The 16 storage keys produced by
`ApiKey.to_dict` stay pairwise distinct under `remapKey`, so keeping the list
form loses nothing against the Python dict comprehension. -/
def remapDoc (d : Doc) : Doc := d.map (fun kv => (remapKey kv.1, kv.2))

/-- The parameter names accepted by the generated `ApiKey.__init__`. -/
def apiKeyFields : List String :=
  ["id", "key_hash", "user_id", "user_email", "name", "description",
   "created_at", "start_date", "expires_at", "is_active", "request_count",
   "rate_limit", "allowed_endpoints", "last_used_at", "ip_whitelist", "metadata"]

/-- The `ApiKey.__init__` parameters without a default value. -/
def apiKeyRequired : List String :=
  ["id", "key_hash", "user_id", "user_email", "name", "description",
   "created_at", "start_date", "expires_at", "is_active", "request_count",
   "rate_limit", "allowed_endpoints"]

/-- Read a required string argument. -/
def asStr : Option PyVal → Except PyErr String
  | some (PyVal.str s) => Except.ok s
  | _ => Except.error (PyErr.typeError "str")

/-- Read a required bool argument. -/
def asBool : Option PyVal → Except PyErr Bool
  | some (PyVal.bool b) => Except.ok b
  | _ => Except.error (PyErr.typeError "bool")

/-- Read a required int argument. -/
def asInt : Option PyVal → Except PyErr Int
  | some (PyVal.int n) => Except.ok n
  | _ => Except.error (PyErr.typeError "int")

/-- Read a required list-of-strings argument. -/
def asStrList : Option PyVal → Except PyErr (List String)
  | some (PyVal.list xs) =>
      xs.mapM (fun v => match v with
        | PyVal.str s => Except.ok s
        | _ => Except.error (PyErr.typeError "str"))
  | _ => Except.error (PyErr.typeError "list")

/-- Read an optional string argument (absent or `None` gives `none`). -/
def asOptStr : Option PyVal → Except PyErr (Option String)
  | some (PyVal.str s) => Except.ok (some s)
  | some PyVal.none => Except.ok Option.none
  | Option.none => Except.ok Option.none
  | _ => Except.error (PyErr.typeError "str")

/-- Read an optional list-of-strings argument. -/
def asOptStrList : Option PyVal → Except PyErr (Option (List String))
  | some (PyVal.list xs) =>
      (xs.mapM (fun v => match v with
        | PyVal.str s => Except.ok s
        | _ => Except.error (PyErr.typeError "str"))).map some
  | some PyVal.none => Except.ok Option.none
  | Option.none => Except.ok Option.none
  | _ => Except.error (PyErr.typeError "list")

/-- Read an optional dict argument. -/
def asOptDict : Option PyVal → Except PyErr (Option (List (String × PyVal)))
  | some (PyVal.dict xs) => Except.ok (some xs)
  | some PyVal.none => Except.ok Option.none
  | Option.none => Except.ok Option.none
  | _ => Except.error (PyErr.typeError "dict")

/-- `ApiKey(**d)`: CPython keyword binding for the generated dataclass
initialiser.  A key that is not a parameter name raises
`TypeError: unexpected keyword argument <key>`; a missing required parameter
also raises `TypeError`.  Payloads are then taken at their stored
representation (a representation mismatch, which never arises for documents
produced by `ApiKey.to_dict`, is also modelled as `TypeError`). -/
def apiKeyFromKwargs (d : Doc) : Except PyErr ApiKey :=
  match d.find? (fun kv => !(apiKeyFields.contains kv.1)) with
  | some kv => Except.error (PyErr.typeError kv.1)
  | Option.none =>
    match apiKeyRequired.find? (fun f => (docGet d f).isNone) with
    | some f => Except.error (PyErr.typeError f)
    | Option.none => do
      let i ← asStr (docGet d "id")
      let kh ← asStr (docGet d "key_hash")
      let uid ← asStr (docGet d "user_id")
      let uem ← asStr (docGet d "user_email")
      let nm ← asStr (docGet d "name")
      let de ← asStr (docGet d "description")
      let ca ← asStr (docGet d "created_at")
      let sd ← asStr (docGet d "start_date")
      let ea ← asStr (docGet d "expires_at")
      let ia ← asBool (docGet d "is_active")
      let rc ← asInt (docGet d "request_count")
      let rl ← asInt (docGet d "rate_limit")
      let ae ← asStrList (docGet d "allowed_endpoints")
      let lu ← asOptStr (docGet d "last_used_at")
      let ipw ← asOptStrList (docGet d "ip_whitelist")
      let md ← asOptDict (docGet d "metadata")
      Except.ok { id := i, key_hash := kh, user_id := uid, user_email := uem,
                  name := nm, description := de, created_at := ca, start_date := sd,
                  expires_at := ea, is_active := ia, request_count := rc,
                  rate_limit := rl, allowed_endpoints := ae, last_used_at := lu,
                  ip_whitelist := ipw, metadata := md }

/-! ## The module's global namespace

Needed because `log_usage` (line 241) evaluates the decorator expression
`firestore.transactional` with a plain global-name lookup each time it runs. -/

/-- The names bound at module scope of `firebase_manager.py`: the imports of
lines 1 to 9 plus the module-level definitions.  `firebase_admin`,
`credentials` and `firestore` are absent: lines 84 and 85 import them inside
the local scope of `FirebaseManager.__init__` only. -/
def moduleGlobals : List String :=
  ["argparse", "json", "os", "hashlib", "secrets", "datetime", "timedelta",
   "Optional", "dataclass", "asdict", "uuid", "ApiKey", "UsageLog",
   "FirebaseManager", "main"]

/-! ## The `FirebaseManager` operations

The handle `self.db` is `Option Store`; `none` is the demo mode entered when
the `firebase-admin` import fails in `__init__` (lines 98 to 100).
Clock and randomness are explicit arguments: `now` for `datetime.utcnow()`,
`random_part` for `secrets.token_hex(32)`, `uuid_val` for `str(uuid.uuid4())`. -/

/-- `generate_api_key` (lines 102 to 105): the literal tag `nf_live_`
followed by the token-hex random part. -/
def generate_api_key (random_part : String) : String := "nf_live_" ++ random_part

/-- `create_api_key` (lines 110 to 152).  Note there is no validation of
`expires_in_days` or `rate_limit` and no digest lookup: the record is built
and persisted unconditionally.  `allowed_endpoints or [...]` is Python
truthiness: both `None` and the empty list fall back to the default. -/
def create_api_key (db : Option Store) (user_id user_email name description : String)
    (expires_in_days rate_limit : Int)
    (allowed_endpoints ip_whitelist : Option (List String)) (start_delay_days : Int)
    (random_part uuid_val : String) (now : Int) : (ApiKey × String) × Option Store :=
  let raw_key := generate_api_key random_part
  let key_hash := hash_api_key raw_key
  let start_date := now + timedeltaDays start_delay_days
  let expires_at := start_date + timedeltaDays expires_in_days
  let api_key : ApiKey :=
    { id := uuid_val, key_hash := key_hash, user_id := user_id, user_email := user_email,
      name := name, description := description, created_at := isoZ now,
      start_date := isoZ start_date, expires_at := isoZ expires_at,
      is_active := true, request_count := 0, rate_limit := rate_limit,
      allowed_endpoints :=
        match allowed_endpoints with
        | Option.none => ["/api/news", "/api/news/search"]
        | some l => if l.isEmpty then ["/api/news", "/api/news/search"] else l,
      ip_whitelist := ip_whitelist }
  match db with
  | Option.none => ((api_key, raw_key), Option.none)
  | some st =>
      ((api_key, raw_key), some { st with apiKeys := setDoc st.apiKeys api_key.id api_key.to_dict })

/-- The outcome of `validate_api_key`, one constructor per return site:
`noDb` is the demo-mode return of line 156, `notFound` the fall-through of
lines 186 to 187, and `revoked`, `notYetActive`, `expired` the three printed
rejections of lines 167 to 181.  The function itself returns
`Optional[ApiKey]`; `ValidateResult.toReturn` is that value. -/
inductive ValidateResult where
  | noDb
  | notFound
  | revoked
  | notYetActive
  | expired
  | valid (k : ApiKey)

/-- The `Optional[ApiKey]` value actually returned for an outcome. -/
def ValidateResult.toReturn : ValidateResult → Option ApiKey
  | ValidateResult.valid k => some k
  | _ => Option.none

/-- `validate_api_key` (lines 154 to 187): hash the raw key, take the first
store document whose `keyHash` equals the digest, rebuild an `ApiKey` from the
remapped document (line 164), then check `is_active`, the start date and the
expiration in that order.  An empty found document is falsy at line 163, so
the loop falls through to `not found`. -/
def validate_api_key (db : Option Store) (raw_key : String) (now : Int) :
    Except PyErr ValidateResult :=
  let key_hash := hash_api_key raw_key
  match db with
  | Option.none => Except.ok ValidateResult.noDb
  | some st =>
    match findFirstBy st.apiKeys "keyHash" key_hash with
    | Option.none => Except.ok ValidateResult.notFound
    | some doc =>
      if doc.isEmpty then Except.ok ValidateResult.notFound
      else do
        let api_key ← apiKeyFromKwargs (remapDoc doc)
        if api_key.is_active = false then pure ValidateResult.revoked
        else do
          let sd ← parseIso api_key.start_date
          if now < sd then pure ValidateResult.notYetActive
          else do
            let ea ← parseIso api_key.expires_at
            if now > ea then pure ValidateResult.expired
            else pure (ValidateResult.valid api_key)

/-- The `Optional[ApiKey]` return value of `validate_api_key`. -/
def validate_return (db : Option Store) (raw_key : String) (now : Int) :
    Except PyErr (Option ApiKey) :=
  (validate_api_key db raw_key now).map ValidateResult.toReturn

/-- `revoke_api_key` (lines 189 to 197): if a document with that id exists,
set `isActive` to `False` and return `True` — whether or not it was already
inactive; otherwise return `False`. -/
def revoke_api_key (db : Option Store) (key_id : String) : Bool × Option Store :=
  match db with
  | Option.none => (false, Option.none)
  | some st =>
    if hasId st.apiKeys key_id then
      (true, some { st with apiKeys := updateById st.apiKeys key_id "isActive" (PyVal.bool false) })
    else (false, some st)

/-- `delete_api_key` (lines 199 to 207). -/
def delete_api_key (db : Option Store) (key_id : String) : Bool × Option Store :=
  match db with
  | Option.none => (false, Option.none)
  | some st =>
    if hasId st.apiKeys key_id then
      (true, some { st with apiKeys := deleteById st.apiKeys key_id })
    else (false, some st)

/-- `get_user_api_keys` (lines 209 to 213): every document whose `userId`
matches, rebuilt through the same remapping as `validate_api_key`; the list
comprehension propagates the first construction failure. -/
def get_user_api_keys (db : Option Store) (user_id : String) :
    Except PyErr (List ApiKey) :=
  match db with
  | Option.none => Except.ok []
  | some st =>
    (st.apiKeys.filter (fun x => isStrEq (docGet x.2 "userId") user_id)).mapM
      (fun x => apiKeyFromKwargs (remapDoc x.2))

/-- `log_usage` (lines 215 to 256).  In demo mode the bare `return` of
line 227 yields `None` despite the declared `UsageLog` return type.  With a
live store, the `UsageLog` is built (lines 228 to 239) and then the decorator
expression `firestore.transactional` of line 241 is evaluated by a
global-name lookup: `firestore` is not among `moduleGlobals`, so every live
call raises `NameError` before the transaction runs and leaves the store
untouched.  The `then` branch faithfully translates the transaction body of
lines 242 to 254 (read `requestCount`, write the incremented count and
`lastUsedAt`, insert the log document) but is unreachable. -/
def log_usage (db : Option Store) (api_key_id endpoint method : String)
    (status_code response_time : Int) (ip_address user_agent : String)
    (query_params : Option (List (String × PyVal))) (uuid_val : String) (now : Int) :
    Except PyErr (Option UsageLog) × Option Store :=
  match db with
  | Option.none => (Except.ok Option.none, Option.none)
  | some st =>
    let log : UsageLog :=
      { id := uuid_val, api_key_id := api_key_id, endpoint := endpoint, method := method,
        status_code := status_code, response_time := response_time, timestamp := isoZ now,
        ip_address := ip_address, user_agent := user_agent, query_params := query_params }
    if moduleGlobals.contains "firestore" then
      match getById st.apiKeys api_key_id with
      | Option.none => (Except.error (PyErr.keyError "requestCount"), some st)
      | some doc =>
        match docGet doc "requestCount" with
        | some (PyVal.int rc) =>
          let keys2 := updateById (updateById st.apiKeys api_key_id "requestCount"
            (PyVal.int (rc + 1))) api_key_id "lastUsedAt" (PyVal.str log.timestamp)
          (Except.ok (some log),
           some { apiKeys := keys2, usageLogs := setDoc st.usageLogs log.id log.to_dict })
        | _ => (Except.error (PyErr.keyError "requestCount"), some st)
    else (Except.error (PyErr.nameError "firestore"), some st)

/-- `check_rate_limit` (lines 258 to 260): `request_count < rate_limit`. -/
def check_rate_limit (api_key : ApiKey) : Bool :=
  decide (api_key.request_count < api_key.rate_limit)

/-- Attribute lookup on a plain Python dict: a dict stores its entries as
items, not attributes, so `l.status_code` and `l.response_time` on the dicts
produced by `to_dict()` raise `AttributeError` (lines 272 and 273). -/
def dictAttr (_d : Doc) (attr : String) : Except PyErr PyVal :=
  Except.error (PyErr.attributeError attr)

/-- A dynamic value used as an int. -/
def pyIntOf : PyVal → Except PyErr Int
  | PyVal.int n => Except.ok n
  | _ => Except.error (PyErr.typeError "int")

/-- Line 272: `sum(1 for l in logs if 200 <= l.status_code < 300)`.  The
generator evaluates `l.status_code` on each dict, so the first element
raises. -/
def sumStatusSuccess (logs : List Doc) : Except PyErr Int :=
  logs.foldlM (fun acc l => do
    let v ← dictAttr l "status_code"
    let sc ← pyIntOf v
    pure (acc + if 200 ≤ sc ∧ sc < 300 then 1 else 0)) 0

/-- Line 273: `sum(l.response_time for l in logs)`. -/
def sumResponseTime (logs : List Doc) : Except PyErr Int :=
  logs.foldlM (fun acc l => do
    let v ← dictAttr l "response_time"
    let rt ← pyIntOf v
    pure (acc + rt)) 0

/-- `round(x, 2)` on the exact rational carried for a Python float.  (The
code reaching this rounds half away from the nearest even differently than
this floor form on exact ties; the call sites below are unreachable, since
`sumStatusSuccess` fails first.) -/
def round2 (q : ℚ) : ℚ := (Rat.floor (q * 100 + 1 / 2) : ℚ) / 100

/-- `get_usage_stats` (lines 262 to 280).  Demo mode returns the empty dict
(line 264).  With zero matching log rows it returns the three-field dict of
line 269 — `errorCount` is absent there.  With at least one row it evaluates
line 272, which accesses `l.status_code` on a dict and raises
`AttributeError`; the remaining lines 273 to 280 are translated but
unreachable. -/
def get_usage_stats (db : Option Store) (api_key_id : String) : Except PyErr Doc :=
  match db with
  | Option.none => Except.ok []
  | some st =>
    let logs := (st.usageLogs.filter
      (fun x => isStrEq (docGet x.2 "apiKeyId") api_key_id)).map (fun x => x.2)
    if logs.isEmpty then
      Except.ok [("totalRequests", PyVal.int 0), ("avgResponseTime", PyVal.int 0),
                 ("successRate", PyVal.int 0)]
    else do
      let total : Int := logs.length
      let success ← sumStatusSuccess logs
      let tsum ← sumResponseTime logs
      let avg : ℚ := (tsum : ℚ) / (total : ℚ)
      Except.ok [("totalRequests", PyVal.int total),
                 ("avgResponseTime", PyVal.rat (round2 avg)),
                 ("successRate", PyVal.rat (round2 ((success : ℚ) / (total : ℚ) * 100))),
                 ("errorCount", PyVal.int (total - success))]

/-! ## Store-level helper lemmas -/

/-- Updating a field in every matching document does not change which ids are
present. -/
theorem hasId_updateById (coll : List (String × Doc)) (i k : String) (v : PyVal) :
    hasId (updateById coll i k v) i = hasId coll i := by
  simp only [hasId, updateById, List.any_map]
  congr 1
  funext x
  by_cases hx : x.1 == i
  · simp [Function.comp, hx]
  · simp [Function.comp, hx]

/-- Point lookup after a field update returns the updated document. -/
theorem getById_updateById (coll : List (String × Doc)) (i k : String) (v : PyVal) :
    getById (updateById coll i k v) i =
      (getById coll i).map (fun d => updateDocField d k v) := by
  induction coll with
  | nil => rfl
  | cons x xs ih =>
    by_cases hx : x.1 == i
    · simp [updateById, getById, List.find?, hx]
    · simpa [updateById, getById, List.find?, hx] using ih

/-- Replacing every entry with a given key makes that key read the new value,
provided some entry carries it. -/
theorem docGet_map_replace (l : Doc) (k : String) (v : PyVal) :
    docGet (l.map (fun kv => if kv.1 == k then (k, v) else kv)) k =
      if l.any (fun kv => kv.1 == k) then some v else docGet l k := by
  induction l with
  | nil => simp [docGet]
  | cons kv rest ih =>
    by_cases h : kv.1 = k
    · simp [docGet, List.find?_cons, List.any_cons, h]
    · simp only [docGet, List.find?_cons, List.any_cons] at ih ⊢
      have hb : (kv.1 == k) = false := beq_eq_false_iff_ne.mpr h
      simp only [List.map_cons, hb, if_false, List.find?_cons, Bool.false_or]
      simpa [hb] using ih

/-- After `updateDocField d k v`, the field `k` reads `v`. -/
theorem docGet_updateDocField (d : Doc) (k : String) (v : PyVal) :
    docGet (updateDocField d k v) k = some v := by
  unfold updateDocField
  by_cases h : d.any (fun kv => kv.1 == k)
  · rw [if_pos h, docGet_map_replace, if_pos h]
  · have hfind : d.find? (fun kv => kv.1 == k) = Option.none := by
      rw [List.find?_eq_none]
      intro x hx hpx
      exact absurd (List.any_eq_true.mpr ⟨x, hx, hpx⟩) h
    rw [if_neg h]
    unfold docGet
    rw [List.find?_append, hfind]
    simp [List.find?_cons]

/-- Two distinct members force length at least two. -/
theorem two_mem_le_length {α : Type} {m : List α} {a b : α}
    (ha : a ∈ m) (hb : b ∈ m) (hab : a ≠ b) : 2 ≤ m.length := by
  obtain ⟨s, t, rfl⟩ := List.append_of_mem ha
  rcases List.mem_append.mp hb with hbs | hbt
  · have hs : 0 < s.length := List.length_pos.mpr (List.ne_nil_of_mem hbs)
    simp only [List.length_append, List.length_cons]
    omega
  · rcases List.mem_cons.mp hbt with h | hbt2
    · exact absurd h.symm hab
    · have ht : 0 < t.length := List.length_pos.mpr (List.ne_nil_of_mem hbt2)
      simp only [List.length_append, List.length_cons]
      omega

/-- A member with a different id survives `setDoc`. -/
theorem mem_setDoc_of_ne {coll : List (String × Doc)} {i : String} {d : Doc}
    {j : String} {nd : Doc} (hmem : (i, d) ∈ coll) (hne : i ≠ j) :
    (i, d) ∈ setDoc coll j nd := by
  unfold setDoc
  by_cases h : hasId coll j
  · simp only [h, if_true]
    refine List.mem_map.mpr ⟨(i, d), hmem, ?_⟩
    have : ((i, d).1 == j) = false := by
      simp only [beq_eq_false_iff_ne, ne_eq]
      exact hne
    simp [this]
  · simp only [h, if_false]
    exact List.mem_append.mpr (Or.inl hmem)

/-- `setDoc` leaves a document with the target id in the collection. -/
theorem mem_setDoc_self (coll : List (String × Doc)) (j : String) (nd : Doc) :
    (j, nd) ∈ setDoc coll j nd := by
  unfold setDoc
  by_cases h : hasId coll j
  · simp only [h, if_true]
    obtain ⟨x, hx, hxj⟩ := List.any_eq_true.mp h
    refine List.mem_map.mpr ⟨x, hx, ?_⟩
    simp [hxj]
  · simp only [h, if_false]
    exact List.mem_append.mpr (Or.inr (List.mem_singleton.mpr rfl))

/-- How many documents of a collection carry a given `keyHash` value. -/
def digestCount (coll : List (String × Doc)) (hsh : String) : Nat :=
  (coll.filter (fun x => isStrEq (docGet x.2 "keyHash") hsh)).length

/-! ## Concrete fixtures used by the claim theorems -/

/-- A fully populated credential record, as `create_api_key` would build it,
with the given id, raw-secret random part, status, window, counter and
limit. -/
def mkKey (i rp : String) (active : Bool) (sd ea rc rl : Int) : ApiKey :=
  { id := i, key_hash := hash_api_key (generate_api_key rp), user_id := "u-" ++ i,
    user_email := "u@example.com", name := "key " ++ i, description := "",
    created_at := isoZ 0, start_date := isoZ sd, expires_at := isoZ ea,
    is_active := active, request_count := rc, rate_limit := rl,
    allowed_endpoints := ["/api/news", "/api/news/search"] }

/-- A usage-log row for credential `k9` with the given status code. -/
def mkLog (i kid : String) (sc : Int) : UsageLog :=
  { id := i, api_key_id := kid, endpoint := "/api/news", method := "GET",
    status_code := sc, response_time := 10, timestamp := isoZ 5,
    ip_address := "203.0.113.9", user_agent := "agent", query_params := Option.none }

/-- A store holding one revoked and expired credential, persisted exactly as
`create_api_key` serialises records (`ApiKey.to_dict`, camelCase keys). -/
def c1Store : Store :=
  { apiKeys := [("k1", (mkKey "k1" "11" false 0 100 0 5).to_dict)], usageLogs := [] }

/-- A store holding one fresh, active credential. -/
def c2Store : Store :=
  { apiKeys := [("k2", (mkKey "k2" "22" true 0 31536000 0 1000).to_dict)], usageLogs := [] }

/-- A store holding one active credential. -/
def c4Store : Store :=
  { apiKeys := [("k4", (mkKey "k4" "44" true 0 31536000 0 5).to_dict)], usageLogs := [] }

/-- `create_api_key` on the empty live store with default-like arguments
(365 validity days, limit 1000, no delay) at time zero. -/
def c5Issue : (ApiKey × String) × Option Store :=
  create_api_key (some emptyStore) "u1" "u@example.com" "key5" "" 365 1000
    Option.none Option.none 0 "cafe01" "uuid-5" 0

/-- A store holding one credential that already used up its limit
(`requestCount = 2`, `rateLimit = 2`). -/
def c7Key : ApiKey := mkKey "k7" "77" true 0 31536000 2 2

/-- The store persisting `c7Key`. -/
def c7Store : Store := { apiKeys := [("k7", c7Key.to_dict)], usageLogs := [] }

/-- A store where credential `k8` has zero usage-log rows (the only row
belongs to another credential). -/
def c8Store : Store :=
  { apiKeys := [("k8", (mkKey "k8" "88" true 0 31536000 0 5).to_dict)],
    usageLogs := [("lx", (mkLog "lx" "other" 200).to_dict)] }

/-- The three-field dict the zero-logs branch of `get_usage_stats`
returns. -/
def zeroStatsDict : Doc :=
  [("totalRequests", PyVal.int 0), ("avgResponseTime", PyVal.int 0),
   ("successRate", PyVal.int 0)]

/-- A store with four usage-log rows for credential `k9`, status codes
200, 404, 201, 500. -/
def c9Store : Store :=
  { apiKeys := [],
    usageLogs := [("l1", (mkLog "l1" "k9" 200).to_dict), ("l2", (mkLog "l2" "k9" 404).to_dict),
                  ("l3", (mkLog "l3" "k9" 201).to_dict), ("l4", (mkLog "l4" "k9" 500).to_dict)] }

/-- A store that already holds a record whose `keyHash` is the digest of the
raw secret `nf_live_zz`. -/
def c6wStore : Store :=
  { apiKeys := [("idA", [("keyHash", PyVal.str (hash_api_key (generate_api_key "zz")))])],
    usageLogs := [] }

/-! ## Claim theorems -/

set_option maxRecDepth 1000000

/-- C1: the claim says `validate` applies its checks in the order
NotFound, Revoked, NotYetActive, Expired, and reports a revoked-and-expired
record as Revoked.  Evaluating the code at such a record instead raises
`TypeError`: the store document (written camelCase by `ApiKey.to_dict`) is
remapped by line 164, which leaves `keyHash` (and `userId`, `userEmail`,
`startDate`, `isActive`) unconverted, so `ApiKey(**...)` rejects the keyword
`keyHash` before any status or window check runs.  Here `k1` is revoked
(`isActive = false`) and expired (`expiresAt` is instant 100, `now` is
1000), and the raw key hashes to its stored digest. -/
theorem c1_validate_revoked_expired_raises_type_error :
    validate_api_key (some c1Store) (generate_api_key "11") 1000 =
      Except.error (PyErr.typeError "keyHash") := by
  rfl

/-- C2: the claim says each `log_usage` call runs one atomic transaction that
increments `requestCount` and inserts one log row.  Evaluating the code on a
live store instead raises `NameError`: line 241 evaluates the decorator
expression `firestore.transactional`, but `firestore` is bound only in the
local scope of `__init__` (lines 84 and 85), never at module scope, so the
lookup fails on every live call and the store is left unchanged. -/
theorem c2_log_usage_raises_name_error :
    log_usage (some c2Store) "k2" "/api/news" "GET" 200 5 "203.0.113.9" "agent"
        Option.none "lg-1" 60 =
      (Except.error (PyErr.nameError "firestore"), some c2Store) := by
  rfl

/-- C5: the claim says `validate(raw)` immediately after a successful `issue`
returning that `raw`, at a time inside the validity window, returns the
issued record.  Evaluating the code instead raises `TypeError`: the record
`create_api_key` persists is serialised camelCase, and validate's remap of
line 164 leaves `keyHash` unconverted, so reconstruction fails.  The window
hypothesis of the claim holds at the chosen instants: `activeFrom` is 0,
`now` is 50, `expiresAt` is 365 days. -/
theorem c5_issue_then_validate_raises_type_error :
    (0 : Int) ≤ 50 ∧ (50 : Int) ≤ 365 * 86400 ∧
    c5Issue.1.1.start_date = isoZ 0 ∧ c5Issue.1.1.expires_at = isoZ (365 * 86400) ∧
    validate_api_key c5Issue.2 c5Issue.1.2 50 =
      Except.error (PyErr.typeError "keyHash") := by
  refine ⟨by decide, by decide, rfl, by decide, ?_⟩
  rfl

/-- C7: the claim says `log_usage` is never gated on the rate limit, so a
call made at `requestCount = rateLimit = 2` still commits and yields
`requestCount = 3`.  The gate part is true — `check_rate_limit` is indeed
false here and `log_usage` never consults it — but the call does not commit:
it raises the same `NameError` as every live `log_usage` call (unbound
module global `firestore`, line 241) and leaves the store unchanged, so
`requestCount` stays 2. -/
theorem c7_over_limit_log_usage_raises_instead_of_committing :
    check_rate_limit c7Key = false ∧
    log_usage (some c7Store) "k7" "/api/news" "GET" 200 7 "203.0.113.9" "agent"
        Option.none "lg-7" 99 =
      (Except.error (PyErr.nameError "firestore"), some c7Store) := by
  exact ⟨rfl, rfl⟩

/-- C8: the claim says `stats` on a credential with zero log rows returns all
four fields as zero, including `errorCount = 0`.  The zero-logs branch
(line 269) actually returns a three-field dict with no `errorCount` key at
all (`main` itself would `KeyError` on line 381 reading it). -/
theorem c8_stats_zero_logs_lacks_error_count :
    get_usage_stats (some c8Store) "k8" = Except.ok zeroStatsDict ∧
    docGet zeroStatsDict "errorCount" = Option.none ∧
    docGet zeroStatsDict "totalRequests" = some (PyVal.int 0) ∧
    docGet zeroStatsDict "avgResponseTime" = some (PyVal.int 0) ∧
    docGet zeroStatsDict "successRate" = some (PyVal.int 0) := by
  exact ⟨rfl, rfl, rfl, rfl, rfl⟩

/-- C9: the claim says `stats` over log rows with status codes
[200, 404, 201, 500] returns totalRequests 4, errorCount 2, success rate 50.
Evaluating the code instead raises `AttributeError`: line 266 turns each row
into a plain dict (`log.to_dict()`), and line 272 reads `l.status_code` as an
attribute of that dict, which does not exist (the stored field is the item
`"statusCode"`), so the computation fails on the first row. -/
theorem c9_stats_nonempty_raises_attribute_error :
    get_usage_stats (some c9Store) "k9" =
      Except.error (PyErr.attributeError "status_code") := by
  rfl

/-- `create_api_key` called with `expires_in_days = -1` and `rate_limit = 0`,
both non-positive. -/
def c3Issue : (ApiKey × String) × Option Store :=
  create_api_key (some emptyStore) "u1" "u@example.com" "bad-key" "" (-1) 0
    Option.none Option.none 0 "33" "uuid-3" 0

/-- C3 counterexample: the claim says `issue` with `validityDays ≤ 0` or
`rateLimit ≤ 0` fails with `ValidationError` and does not persist.  With
`expires_in_days = -1` and `rate_limit = 0`, `create_api_key` persists the
record into the store and returns it without any error (it has no validation
at all); the stored window is even inverted (`expiresAt` one day before
`activeFrom`). -/
theorem c3_nonpositive_input_accepted_cex :
    c3Issue.2 = some { emptyStore with apiKeys := [("uuid-3", c3Issue.1.1.to_dict)] } ∧
    c3Issue.1.1.rate_limit = 0 ∧
    c3Issue.1.1.start_date = isoZ 0 ∧
    c3Issue.1.1.expires_at = isoZ (-86400) := by
  exact ⟨rfl, rfl, rfl, rfl⟩

/-- C3 amended: `create_api_key` performs no input validation: for every
input with `validityDays ≤ 0` or `rateLimit ≤ 0` it still builds the record
(`requestCount = 0`, `isActive = true`, the given `rate_limit` unchanged),
persists it with `setDoc`, and returns it — no `ValidationError` exists in
the code. -/
theorem c3_create_never_validates (st : Store) (uid em nm de : String)
    (ed rl : Int) (ae ipw : Option (List String)) (sdl : Int) (rp uu : String)
    (now : Int) (_hbad : ed ≤ 0 ∨ rl ≤ 0) :
    (create_api_key (some st) uid em nm de ed rl ae ipw sdl rp uu now).2 =
      some { st with apiKeys := setDoc st.apiKeys uu ((create_api_key (some st) uid em nm de ed rl ae ipw sdl rp uu now).1.1.to_dict) } ∧
    (create_api_key (some st) uid em nm de ed rl ae ipw sdl rp uu now).1.1.rate_limit = rl ∧
    (create_api_key (some st) uid em nm de ed rl ae ipw sdl rp uu now).1.1.request_count = 0 ∧
    (create_api_key (some st) uid em nm de ed rl ae ipw sdl rp uu now).1.1.is_active = true := by
  exact ⟨rfl, rfl, rfl, rfl⟩

/-- C3 witness: the amended statement at the concrete non-positive input
`expires_in_days = -1`, `rate_limit = 0`. -/
theorem c3_create_never_validates_witness :
    (create_api_key (some emptyStore) "u1" "u@example.com" "bad-key" "" (-1) 0
        Option.none Option.none 0 "33" "w3" 0).2 =
      some { emptyStore with apiKeys := setDoc emptyStore.apiKeys "w3" ((create_api_key (some emptyStore) "u1" "u@example.com" "bad-key" "" (-1) 0 Option.none Option.none 0 "33" "w3" 0).1.1.to_dict) } ∧
    (create_api_key (some emptyStore) "u1" "u@example.com" "bad-key" "" (-1) 0
        Option.none Option.none 0 "33" "w3" 0).1.1.rate_limit = 0 ∧
    (create_api_key (some emptyStore) "u1" "u@example.com" "bad-key" "" (-1) 0
        Option.none Option.none 0 "33" "w3" 0).1.1.request_count = 0 ∧
    (create_api_key (some emptyStore) "u1" "u@example.com" "bad-key" "" (-1) 0
        Option.none Option.none 0 "33" "w3" 0).1.1.is_active = true :=
  c3_create_never_validates emptyStore "u1" "u@example.com" "bad-key" "" (-1) 0
    Option.none Option.none 0 "33" "w3" 0 (Or.inl (by decide))

/-- C4 counterexample: the claim says revoking twice on the same existing
active id returns true then false.  On a store holding the active record
`k4`, both calls return true: `revoke_api_key` tests only document
existence (line 193), not whether the record is still active. -/
theorem c4_revoke_twice_true_cex :
    (revoke_api_key (some c4Store) "k4").1 = true ∧
    (revoke_api_key (revoke_api_key (some c4Store) "k4").2 "k4").1 = true := by
  exact ⟨rfl, rfl⟩

/-- C4 amended: `revoke_api_key(id)` returns true exactly when a document
with that id exists — regardless of whether it is already revoked — and
returns false, without raising, for a nonexistent id (and in demo mode);
hence a second revoke on the same existing id returns true again.  When the
id exists, the store update sets the matched document's `isActive` field to
`False` (the point lookup afterwards sees the updated document). -/
theorem c4_revoke_reports_existence (st : Store) (kid : String) :
    (revoke_api_key (some st) kid).1 = hasId st.apiKeys kid ∧
    (revoke_api_key (revoke_api_key (some st) kid).2 kid).1 = hasId st.apiKeys kid ∧
    (revoke_api_key Option.none kid).1 = false ∧
    (revoke_api_key (some st) kid).2 = some (if hasId st.apiKeys kid then
        { st with apiKeys := updateById st.apiKeys kid "isActive" (PyVal.bool false) }
      else st) ∧
    getById (updateById st.apiKeys kid "isActive" (PyVal.bool false)) kid =
      (getById st.apiKeys kid).map (fun d => updateDocField d "isActive" (PyVal.bool false)) := by
  by_cases h : hasId st.apiKeys kid
  · refine ⟨by simp [revoke_api_key, h], ?_, rfl, by simp [revoke_api_key, h],
      getById_updateById _ _ _ _⟩
    simp [revoke_api_key, h, hasId_updateById]
  · refine ⟨by simp [revoke_api_key, h], ?_, rfl, by simp [revoke_api_key, h],
      getById_updateById _ _ _ _⟩
    simp [revoke_api_key, h]

/-- The first `create_api_key` call with random part `rp6`. -/
def c6First : Option Store :=
  (create_api_key (some emptyStore) "u1" "e1" "k1" "" 365 10 Option.none Option.none 0
    "rp6" "idA" 0).2

/-- A second `create_api_key` call whose generator returned the same random
part `rp6` — a digest collision with the record already in the store. -/
def c6Second : Option Store :=
  (create_api_key c6First "u2" "e2" "k2" "" 365 10 Option.none Option.none 0
    "rp6" "idB" 0).2

/-- C6 counterexample: the claim says `issue` detects a pre-existing record
with the same digest and regenerates, so no two persisted records share a
`secretDigest`.  When the generator repeats a random part, the second
`create_api_key` persists a second record with the identical `keyHash`
digest under a distinct id — there is no collision check in the code. -/
theorem c6_duplicate_digest_persisted_cex :
    c6Second.map (fun st => st.apiKeys.map (fun x => (x.1, docGet x.2 "keyHash"))) =
      some [("idA", some (PyVal.str (hash_api_key (generate_api_key "rp6")))),
            ("idB", some (PyVal.str (hash_api_key (generate_api_key "rp6"))))] ∧
    ("idA" : String) ≠ "idB" := by
  exact ⟨rfl, by decide⟩

/-- C6 amended: `hash_api_key` is a deterministic function of the raw key,
but `create_api_key` makes no digest-collision check: whenever the store
already holds a record (under a different id) whose `keyHash` equals the
digest of the secret being issued, the call still persists its record
unconditionally, leaving at least two records with that digest.  Digest
uniqueness therefore rests solely on generator randomness. -/
theorem c6_create_has_no_collision_check (st : Store) (uid em nm de : String)
    (ed rl : Int) (ae ipw : Option (List String)) (sdl : Int) (rp uu : String)
    (now : Int) (i : String) (d : Doc)
    (hmem : (i, d) ∈ st.apiKeys)
    (hdg : isStrEq (docGet d "keyHash") (hash_api_key (generate_api_key rp)) = true)
    (hne : i ≠ uu) :
    ∃ st2, (create_api_key (some st) uid em nm de ed rl ae ipw sdl rp uu now).2 = some st2 ∧
      2 ≤ digestCount st2.apiKeys (hash_api_key (generate_api_key rp)) := by
  refine ⟨_, rfl, ?_⟩
  have h1 : (i, d) ∈ setDoc st.apiKeys uu
      ((create_api_key (some st) uid em nm de ed rl ae ipw sdl rp uu now).1.1.to_dict) :=
    mem_setDoc_of_ne hmem hne
  have h2 : (uu, (create_api_key (some st) uid em nm de ed rl ae ipw sdl rp uu now).1.1.to_dict) ∈
      setDoc st.apiKeys uu
        ((create_api_key (some st) uid em nm de ed rl ae ipw sdl rp uu now).1.1.to_dict) :=
    mem_setDoc_self _ _ _
  have hp2 : isStrEq (docGet
      ((create_api_key (some st) uid em nm de ed rl ae ipw sdl rp uu now).1.1.to_dict)
      "keyHash") (hash_api_key (generate_api_key rp)) = true := by
    show (hash_api_key (generate_api_key rp) == hash_api_key (generate_api_key rp)) = true
    exact beq_self_eq_true _
  exact two_mem_le_length (List.mem_filter.mpr ⟨h1, hdg⟩) (List.mem_filter.mpr ⟨h2, hp2⟩)
    (fun hcontra => hne (congrArg Prod.fst hcontra))

/-- C6 witness: the amended statement on a concrete store that already holds
the digest of `nf_live_zz` under id `idA`, issuing with the same random part
under id `idB`. -/
theorem c6_create_has_no_collision_check_witness :
    ∃ st2, (create_api_key (some c6wStore) "u" "e" "n" "" 365 10 Option.none Option.none 0
        "zz" "idB" 0).2 = some st2 ∧
      2 ≤ digestCount st2.apiKeys (hash_api_key (generate_api_key "zz")) :=
  c6_create_has_no_collision_check c6wStore "u" "e" "n" "" 365 10 Option.none Option.none 0
    "zz" "idB" 0 "idA" [("keyHash", PyVal.str (hash_api_key (generate_api_key "zz")))]
    (by simp [c6wStore])
    (by show (hash_api_key (generate_api_key "zz") == hash_api_key (generate_api_key "zz")) = true
        exact beq_self_eq_true _)
    (by decide)

/-- C10: with no store backend (`self.db` is `None`, the demo mode of
lines 98 to 100), every public operation degrades silently:
`validate_api_key` returns `None` for every raw key, `revoke_api_key` and
`delete_api_key` return `False` for every id, `get_user_api_keys` returns
the empty list, `get_usage_stats` returns the empty dict, and `log_usage`
returns `None` (bare `return`, line 227) despite its declared `UsageLog`
return type. -/
theorem c10_demo_mode_degrades_silently (raw : String) (now : Int)
    (kid uid ep me ip ua uu : String) (sc rt : Int)
    (qp : Option (List (String × PyVal))) :
    validate_return Option.none raw now = Except.ok Option.none ∧
    revoke_api_key Option.none kid = (false, Option.none) ∧
    delete_api_key Option.none kid = (false, Option.none) ∧
    get_user_api_keys Option.none uid = Except.ok [] ∧
    get_usage_stats Option.none kid = Except.ok [] ∧
    log_usage Option.none kid ep me sc rt ip ua qp uu now =
      (Except.ok Option.none, Option.none) := by
  exact ⟨rfl, rfl, rfl, rfl, rfl, rfl⟩

end NewsDashboard
